import Mathlib

/-!
Verification development for the chart-recommender application (src/app.py).

The program has three pieces of logic with design content:

- `analyze_data` (app.py lines 26-51): per-column type inference over a
  pandas DataFrame, with an in-place string-to-datetime coercion.
- `create_chart` (app.py lines 155-198): mapping from a chart_type string
  to a declarative Altair chart specification.
- the recommendation-parsing step (app.py lines 107-110) and the
  recommendation rendering loop (app.py lines 237-251).

The shallow embedding below models a DataFrame as a list of named columns,
where a column stores a dtype-homogeneous representation (numeric, datetime,
or object/string), mirroring the pandas dtype dispatch that `analyze_data`
performs via is_numeric_dtype / is_datetime64_any_dtype. Python dict
construction is modelled as ordered association-list insertion with
overwrite-in-place semantics. Exceptions are modelled with Option / Except.
-/

namespace ChartRecommender

/-- A temporal value, as produced by pandas.to_datetime. A bare date string
normalizes to midnight, so distinct raw strings can parse to equal
timestamps. -/
structure Timestamp where
  year : Nat
  month : Nat
  day : Nat
  hour : Nat
  minute : Nat
  second : Nat
deriving DecidableEq, Repr

/-- Split a character list on a separator character (model of string
splitting used by the date parser). -/
def splitOnChar (sep : Char) : List Char → List (List Char)
  | [] => [[]]
  | c :: cs =>
    match splitOnChar sep cs with
    | [] => if c = sep then [[], [c]] else [[c]]
    | r :: rs => if c = sep then [] :: r :: rs else (c :: r) :: rs

/-- Interpret a nonempty all-digit character list as a natural number. -/
def digitsToNat (cs : List Char) : Option Nat :=
  if cs.isEmpty then none
  else if cs.all Char.isDigit then
    some (cs.foldl (fun n c => n * 10 + (c.toNat - 48)) 0)
  else none

/-- Parse an HH:MM:SS time-of-day component. -/
def parseHMS (cs : List Char) : Option (Nat × Nat × Nat) :=
  match splitOnChar ':' cs with
  | [h, m, s] =>
    match digitsToNat h, digitsToNat m, digitsToNat s with
    | some hh, some mm, some ss =>
      if hh < 24 ∧ mm < 60 ∧ ss < 60 then some (hh, mm, ss) else none
    | _, _, _ => none
  | _ => none

/-- Parse a YYYY-MM-DD date component, attaching a time of day. -/
def parseYMD (cs : List Char) (hh mm ss : Nat) : Option Timestamp :=
  match splitOnChar '-' cs with
  | [y, mo, d] =>
    match digitsToNat y, digitsToNat mo, digitsToNat d with
    | some yy, some mon, some dd =>
      if 1 ≤ mon ∧ mon ≤ 12 ∧ 1 ≤ dd ∧ dd ≤ 31 then
        some ⟨yy, mon, dd, hh, mm, ss⟩
      else none
    | _, _, _ => none
  | _ => none

/-- Model of the fragment of pandas.to_datetime string parsing exercised
here: ISO dates "YYYY-MM-DD", optionally followed by a space and an
"HH:MM:SS" time of day. A bare date is normalized to midnight, exactly as
pandas normalizes it, so "2021-01-01" and "2021-01-01 00:00:00" parse to
the same `Timestamp`. Any other shape fails to parse. -/
def parseDate (s : String) : Option Timestamp :=
  match splitOnChar ' ' s.data with
  | [d] => parseYMD d 0 0 0
  | [d, t] =>
    match parseHMS t with
    | some (hh, mm, ss) => parseYMD d hh mm ss
    | none => none
  | _ => none

/-- The stored representation of one DataFrame column. The constructor
tracks the pandas dtype: `numeric` answers is_numeric_dtype, `datetime`
answers is_datetime64_any_dtype, and `object` holds raw strings. -/
inductive ColumnData where
  | numeric (vals : List Int)
  | datetime (vals : List Timestamp)
  | object (vals : List String)
deriving DecidableEq, Repr

/-- Number of stored values (the row count of the column). -/
def ColumnData.length : ColumnData → Nat
  | .numeric vals => vals.length
  | .datetime vals => vals.length
  | .object vals => vals.length

/-- Model of pandas Series.nunique: the number of distinct stored values. -/
def ColumnData.nunique : ColumnData → Nat
  | .numeric vals => vals.dedup.length
  | .datetime vals => vals.dedup.length
  | .object vals => vals.dedup.length

/-- Model of pandas.api.types.is_numeric_dtype on the stored column. -/
def is_numeric_dtype : ColumnData → Bool
  | .numeric _ => true
  | _ => false

/-- Model of pandas.api.types.is_datetime64_any_dtype on the stored
column. -/
def is_datetime64_any_dtype : ColumnData → Bool
  | .datetime _ => true
  | _ => false

/-- Model of pd.to_datetime(series, errors="raise") on an object column:
every raw string must parse, otherwise the whole conversion fails (the
Python call raises, caught by the surrounding try/except). -/
def to_datetime : List String → Option (List Timestamp)
  | [] => some []
  | s :: rest =>
    match parseDate s, to_datetime rest with
    | some t, some ts => some (t :: ts)
    | _, _ => none

/-- A named DataFrame column. -/
structure Column where
  name : String
  data : ColumnData
deriving DecidableEq, Repr

/-- A DataFrame: an ordered sequence of named columns. -/
abbrev DataFrame := List Column

/-- The per-column metadata record built by analyze_data (app.py 46-49):
a type tag string and the unique count. -/
structure ColumnMeta where
  type : String
  n_unique : Nat
deriving DecidableEq, Repr

/-- The loop body of analyze_data (app.py 29-49) for one column. The local
`series` is bound to the stored column before any coercion; the assignment
df[col] = parsed rebinds the DataFrame column to a new series, so the
n_unique recorded in the metadata is computed on the ORIGINAL stored
values even on the coercion branch. -/
def analyzeColumn (c : Column) : ColumnMeta × Column :=
  let series := c.data
  if is_numeric_dtype series then
    (⟨"numeric", series.nunique⟩, c)
  else if is_datetime64_any_dtype series then
    (⟨"datetime", series.nunique⟩, c)
  else
    match series with
    | .object vals =>
      match to_datetime vals with
      | some parsed => (⟨"datetime", series.nunique⟩, { c with data := .datetime parsed })
      | none => (⟨"categorical", series.nunique⟩, c)
    | _ => (⟨"categorical", series.nunique⟩, c)

/-- Python dict assignment meta[col] = v: overwrite in place when the key
exists, otherwise append at the end (insertion order is preserved). -/
def dictInsert (d : List (String × ColumnMeta)) (k : String) (v : ColumnMeta) :
    List (String × ColumnMeta) :=
  if d.any (fun p => p.1 = k) then
    d.map (fun p => if p.1 = k then (k, v) else p)
  else d ++ [(k, v)]

/-- analyze_data (app.py 26-51): iterate over the columns in order,
classify each one, record metadata keyed by column name, and return the
metadata together with the possibly coerced DataFrame. -/
def analyze_data (df : DataFrame) : List (String × ColumnMeta) × DataFrame :=
  (df.foldl (fun meta c => dictInsert meta c.name (analyzeColumn c).1) [],
   df.map (fun c => (analyzeColumn c).2))

/-! ### Chart mapper (create_chart, app.py 155-198) -/

/-- The axis-type hint of an Altair encoding: a plain column-name shorthand
leaves the type to be inferred, while the ":Q" / ":N" suffixes force
quantitative / nominal. -/
inductive EncType where
  | inferred
  | quantitative
  | nominal
deriving DecidableEq, Repr

/-- One Altair axis encoding: a field name, the forced type hint if any,
whether the axis is binned, and an optional aggregate transform. -/
structure Encoding where
  field : String
  etype : EncType
  bin : Bool
  aggregate : Option String
deriving DecidableEq, Repr

/-- A plain column-name shorthand encoding, as in x=x_col. -/
def shorthand (f : String) : Encoding :=
  ⟨f, .inferred, false, none⟩

/-- The Altair count aggregate shorthand used as the histogram y-encoding:
an aggregate over no field. -/
def countEncoding : Encoding :=
  ⟨"", .inferred, false, some "count"⟩

/-- The declarative chart produced by create_chart: the bound data, a mark
string, the two axis encodings and the title property. -/
structure ChartSpec where
  data : DataFrame
  mark : String
  x : Encoding
  y : Encoding
  title : String
deriving DecidableEq, Repr

/-- create_chart (app.py 155-198): dispatch on the chart_type string to one
of six chart shapes, falling back to a point mark for anything else. -/
def create_chart (df : DataFrame) (x_col y_col chart_type title : String) : ChartSpec :=
  if chart_type = "line" then
    ⟨df, "line", shorthand x_col, shorthand y_col, title⟩
  else if chart_type = "bar" then
    ⟨df, "bar", shorthand x_col, shorthand y_col, title⟩
  else if chart_type = "scatter" then
    ⟨df, "point", shorthand x_col, shorthand y_col, title⟩
  else if chart_type = "area" then
    ⟨df, "area", shorthand x_col, shorthand y_col, title⟩
  else if chart_type = "histogram" then
    ⟨df, "bar", ⟨x_col, .quantitative, true, none⟩, countEncoding, title⟩
  else if chart_type = "boxplot" then
    ⟨df, "boxplot", ⟨x_col, .nominal, false, none⟩, ⟨y_col, .quantitative, false, none⟩, title⟩
  else
    ⟨df, "point", shorthand x_col, shorthand y_col, title⟩

/-! ### Recommendation parsing (ask_llm_for_charts, app.py 107-110) -/

/-- A JSON value, the result type of a successful json.loads. -/
inductive Json where
  | null
  | bool (b : Bool)
  | num (n : Int)
  | str (s : String)
  | arr (xs : List Json)
  | obj (fields : List (String × Json))
deriving Repr

/-- The tail of ask_llm_for_charts (app.py 107-110): try json.loads on the
raw response text and return the parsed value; on any parsing failure the
bare except returns the empty recommendation list. The external stdlib
json.loads is passed in as a function returning none on failure (the bare
except catches every exception it raises). -/
def parseChartsResponse (loads : String → Option Json) (text : String) : Json :=
  match loads text with
  | some j => j
  | none => Json.obj [("recommendations", Json.arr [])]

/-! ### Recommendation rendering loop (app.py 237-251) -/

/-- What one loop iteration displays for one recommendation: either a
rendered chart, or the st.error message shown when the try/except around
create_chart and st.altair_chart catches a rendering failure. -/
inductive RenderOutcome where
  | rendered (spec : ChartSpec)
  | renderError (chart_type msg : String)
deriving DecidableEq, Repr

/-- The keys the loop body reads from a recommendation dict OUTSIDE the
try/except: r[chart_type], r[title] (app.py 238-239) and the four caption
keys (app.py 242-245). -/
def requiredKeys : List String :=
  ["chart_type", "title", "intent", "strengths", "weaknesses", "when_to_use"]

/-- A recommendation item as parsed from JSON: a dict of string fields. -/
abbrev RecItem := List (String × String)

/-- Whether a recommendation item carries every key the loop body reads. -/
def wellFormed (r : RecItem) : Bool :=
  requiredKeys.all (fun k => (r.lookup k).isSome)

/-- One iteration of the rendering loop (app.py 237-251). The dict key
accesses happen before and outside the try/except, so a missing key raises
an uncaught KeyError, modelled as Except.error; only the chart construction
and the st.altair_chart call (modelled by the external render function,
which may fail) sit inside the try, whose except branch displays an error
message and lets the loop continue. -/
def renderItem (render : ChartSpec → Except String Unit) (df : DataFrame)
    (x_col y_col : String) (r : RecItem) : Except String RenderOutcome :=
  match r.lookup "chart_type", r.lookup "title", r.lookup "intent",
        r.lookup "strengths", r.lookup "weaknesses", r.lookup "when_to_use" with
  | some chart_type, some title, some _, some _, some _, some _ =>
    match render (create_chart df x_col y_col chart_type title) with
    | Except.ok _ => Except.ok (RenderOutcome.rendered (create_chart df x_col y_col chart_type title))
    | Except.error e => Except.ok (RenderOutcome.renderError chart_type e)
  | _, _, _, _, _, _ => Except.error "KeyError"

/-- The rendering loop over the parsed recommendation list: an uncaught
exception in one iteration aborts the whole script run (no later item is
processed), while a caught rendering failure contributes an error outcome
and the loop moves on. -/
def renderLoop (render : ChartSpec → Except String Unit) (df : DataFrame)
    (x_col y_col : String) : List RecItem → Except String (List RenderOutcome)
  | [] => Except.ok []
  | r :: rs =>
    match renderItem render df x_col y_col r with
    | Except.error e => Except.error e
    | Except.ok out =>
      match renderLoop render df x_col y_col rs with
      | Except.error e => Except.error e
      | Except.ok outs => Except.ok (out :: outs)

/-! ### Helper lemmas -/

/-- A successful to_datetime conversion preserves the number of values. -/
theorem to_datetime_length (vals : List String) (parsed : List Timestamp)
    (h : to_datetime vals = some parsed) : parsed.length = vals.length := by
  induction vals generalizing parsed with
  | nil =>
    simp only [to_datetime] at h
    cases h
    rfl
  | cons s rest ih =>
    simp only [to_datetime] at h
    cases hs : parseDate s with
    | none => rw [hs] at h; exact absurd h (by simp)
    | some t =>
      rw [hs] at h
      cases hr : to_datetime rest with
      | none => rw [hr] at h; exact absurd h (by simp)
      | some ts =>
        rw [hr] at h
        cases h
        simp [ih ts hr]

/-- The per-column step preserves the column name and the row count. -/
theorem analyzeColumn_shape (c : Column) :
    (analyzeColumn c).2.name = c.name ∧ (analyzeColumn c).2.data.length = c.data.length := by
  obtain ⟨n, data⟩ := c
  cases data with
  | numeric vals => exact ⟨rfl, rfl⟩
  | datetime vals => exact ⟨rfl, rfl⟩
  | object vals =>
    cases h : to_datetime vals with
    | none => simp [analyzeColumn, is_numeric_dtype, is_datetime64_any_dtype, h]
    | some parsed =>
      refine ⟨by simp [analyzeColumn, is_numeric_dtype, is_datetime64_any_dtype, h], ?_⟩
      simp [analyzeColumn, is_numeric_dtype, is_datetime64_any_dtype, h, ColumnData.length,
        to_datetime_length vals parsed h]

/-- The recorded unique count is always computed on the original stored
values of the column, before any coercion. -/
theorem analyzeColumn_n_unique (c : Column) :
    (analyzeColumn c).1.n_unique = c.data.nunique := by
  obtain ⟨n, data⟩ := c
  cases data with
  | numeric vals => rfl
  | datetime vals => rfl
  | object vals =>
    cases h : to_datetime vals with
    | none => simp [analyzeColumn, is_numeric_dtype, is_datetime64_any_dtype, h]
    | some parsed => simp [analyzeColumn, is_numeric_dtype, is_datetime64_any_dtype, h]

/-- Inserting a fresh key into the metadata dict appends it at the end. -/
theorem dictInsert_of_not_mem (d : List (String × ColumnMeta)) (k : String) (v : ColumnMeta)
    (h : k ∉ d.map Prod.fst) : dictInsert d k v = d ++ [(k, v)] := by
  unfold dictInsert
  rw [if_neg]
  intro hany
  rw [List.any_eq_true] at hany
  obtain ⟨p, hp, hpk⟩ := hany
  have hmem : p.1 ∈ d.map Prod.fst := List.mem_map_of_mem Prod.fst hp
  rw [of_decide_eq_true hpk] at hmem
  exact h hmem

/-- Folding the metadata dict over columns with pairwise-distinct names
produces one entry per column, in column order. -/
theorem analyze_meta_foldl (df : DataFrame) (acc : List (String × ColumnMeta))
    (hnd : (df.map Column.name).Nodup)
    (hdisj : ∀ c ∈ df, c.name ∉ acc.map Prod.fst) :
    df.foldl (fun meta c => dictInsert meta c.name (analyzeColumn c).1) acc
      = acc ++ df.map (fun c => (c.name, (analyzeColumn c).1)) := by
  induction df generalizing acc with
  | nil => simp
  | cons c rest ih =>
    simp only [List.map_cons, List.nodup_cons] at hnd
    obtain ⟨hc, hrest⟩ := hnd
    simp only [List.foldl_cons]
    rw [dictInsert_of_not_mem _ _ _ (hdisj c (List.mem_cons_self c rest))]
    rw [ih (acc ++ [(c.name, (analyzeColumn c).1)]) hrest]
    · simp
    · intro c2 hc2
      simp only [List.map_append, List.mem_append] at *
      rintro (hin | hin)
      · exact hdisj c2 (List.mem_cons_of_mem c hc2) hin
      · simp only [List.map_cons, List.map_nil, List.mem_singleton] at hin
        exact hc (hin ▸ List.mem_map_of_mem Column.name hc2)

/-- With pairwise-distinct column names, the metadata returned by
analyze_data is exactly one entry per column, keyed by name, in order. -/
theorem analyze_data_meta (df : DataFrame) (hnd : (df.map Column.name).Nodup) :
    (analyze_data df).1 = df.map (fun c => (c.name, (analyzeColumn c).1)) := by
  have := analyze_meta_foldl df [] hnd (by simp)
  simpa [analyze_data] using this

/-! ### Claim theorems -/

/-- Claim C1, counterexample. The claim says the cardinality reported by
analyze_data equals the number of distinct values after datetime coercion.
On the one-column dataset whose values are the two distinct strings
"2021-01-01" and "2021-01-01 00:00:00", both parse to the same midnight
timestamp: the coerced column has 1 distinct value, yet the metadata
reports n_unique = 2, because the source computes nunique on the local
series bound before the coercion assignment. -/
theorem analyze_data_cardinality_counterexample :
    (analyze_data [⟨"d", ColumnData.object ["2021-01-01", "2021-01-01 00:00:00"]⟩]).1.map
        (fun p => p.2.n_unique) = [2]
    ∧ (analyze_data [⟨"d", ColumnData.object ["2021-01-01", "2021-01-01 00:00:00"]⟩]).2.map
        (fun c => c.data.nunique) = [1] := by
  exact ⟨rfl, rfl⟩

/-- Claim C1, amended. For every dataset with pairwise-distinct column
names, the cardinality reported by analyze_data for each column equals the
number of distinct values among the ORIGINAL stored values of that column
(before any datetime coercion), not the post-coercion distinct count. -/
theorem analyze_data_cardinality_pre_coercion (df : DataFrame)
    (hnd : (df.map Column.name).Nodup) :
    (analyze_data df).1.map (fun p => p.2.n_unique)
      = df.map (fun c => c.data.nunique) := by
  rw [analyze_data_meta df hnd, List.map_map]
  refine List.map_congr_left ?_
  intro c _
  exact analyzeColumn_n_unique c

/-- Claim C1, witness for the amended theorem at a concrete dataset whose
column is coerced to datetime. -/
theorem analyze_data_cardinality_pre_coercion_witness :
    (analyze_data [⟨"d", ColumnData.object ["2021-01-01", "2021-01-01 00:00:00"]⟩]).1.map
        (fun p => p.2.n_unique)
      = [Column.mk "d" (ColumnData.object ["2021-01-01", "2021-01-01 00:00:00"])].map
          (fun c => c.data.nunique) :=
  analyze_data_cardinality_pre_coercion
    [⟨"d", ColumnData.object ["2021-01-01", "2021-01-01 00:00:00"]⟩] (by decide)

/-- Claim C2. The per-column inference step applied by analyze_data to
each column follows the ordered rules: a numeric dtype is classified
numeric and left unchanged; otherwise a temporal dtype is classified
datetime and left unchanged; otherwise, if every stored string parses as a
date, the stored values are replaced by the parsed timestamps and the
column is classified datetime; otherwise it is classified categorical and
left unchanged. -/
theorem analyze_data_classification_rules (c : Column) :
    (is_numeric_dtype c.data = true →
      (analyzeColumn c).1.type = "numeric" ∧ (analyzeColumn c).2 = c)
    ∧ (is_numeric_dtype c.data = false ∧ is_datetime64_any_dtype c.data = true →
      (analyzeColumn c).1.type = "datetime" ∧ (analyzeColumn c).2 = c)
    ∧ (∀ vals parsed, c.data = ColumnData.object vals → to_datetime vals = some parsed →
      (analyzeColumn c).1.type = "datetime"
        ∧ (analyzeColumn c).2 = { c with data := ColumnData.datetime parsed })
    ∧ (∀ vals, c.data = ColumnData.object vals → to_datetime vals = none →
      (analyzeColumn c).1.type = "categorical" ∧ (analyzeColumn c).2 = c) := by
  obtain ⟨n, data⟩ := c
  refine ⟨?_, ?_, ?_, ?_⟩
  · intro h
    cases data with
    | numeric vals => exact ⟨rfl, rfl⟩
    | datetime vals => exact absurd h (by simp [is_numeric_dtype])
    | object vals => exact absurd h (by simp [is_numeric_dtype])
  · rintro ⟨h1, h2⟩
    cases data with
    | numeric vals => exact absurd h1 (by simp [is_numeric_dtype])
    | datetime vals => exact ⟨rfl, rfl⟩
    | object vals => exact absurd h2 (by simp [is_datetime64_any_dtype])
  · intro vals parsed hdata hparse
    cases data with
    | numeric vals2 => exact absurd hdata (by simp)
    | datetime vals2 => exact absurd hdata (by simp)
    | object vals2 =>
      cases hdata
      constructor
      · simp [analyzeColumn, is_numeric_dtype, is_datetime64_any_dtype, hparse, ColumnMeta.type]
      · simp [analyzeColumn, is_numeric_dtype, is_datetime64_any_dtype, hparse]
  · intro vals hdata hparse
    cases data with
    | numeric vals2 => exact absurd hdata (by simp)
    | datetime vals2 => exact absurd hdata (by simp)
    | object vals2 =>
      cases hdata
      constructor
      · simp [analyzeColumn, is_numeric_dtype, is_datetime64_any_dtype, hparse, ColumnMeta.type]
      · simp [analyzeColumn, is_numeric_dtype, is_datetime64_any_dtype, hparse]

/-- Claim C2, witness: rule 1 on a stored-numeric column and rule 3 on a
column of parseable date strings (which is coerced). -/
theorem analyze_data_classification_rules_witness :
    ((analyzeColumn ⟨"n", ColumnData.numeric [1, 2, 2, 3]⟩).1.type = "numeric"
      ∧ (analyzeColumn ⟨"n", ColumnData.numeric [1, 2, 2, 3]⟩).2
          = ⟨"n", ColumnData.numeric [1, 2, 2, 3]⟩)
    ∧ ((analyzeColumn ⟨"d", ColumnData.object ["2021-01-01", "2021-02-01", "2021-03-01"]⟩).1.type
          = "datetime"
      ∧ (analyzeColumn ⟨"d", ColumnData.object ["2021-01-01", "2021-02-01", "2021-03-01"]⟩).2
          = ⟨"d", ColumnData.datetime
              [⟨2021, 1, 1, 0, 0, 0⟩, ⟨2021, 2, 1, 0, 0, 0⟩, ⟨2021, 3, 1, 0, 0, 0⟩]⟩) :=
  ⟨(analyze_data_classification_rules ⟨"n", ColumnData.numeric [1, 2, 2, 3]⟩).1 rfl,
   (analyze_data_classification_rules
      ⟨"d", ColumnData.object ["2021-01-01", "2021-02-01", "2021-03-01"]⟩).2.2.1
      ["2021-01-01", "2021-02-01", "2021-03-01"]
      [⟨2021, 1, 1, 0, 0, 0⟩, ⟨2021, 2, 1, 0, 0, 0⟩, ⟨2021, 3, 1, 0, 0, 0⟩] rfl rfl⟩

/-- Claim C3. analyze_data never changes the column count, the column
names, or the per-column row count of the dataset. -/
theorem analyze_data_preserves_shape (df : DataFrame) :
    (analyze_data df).2.length = df.length
    ∧ (analyze_data df).2.map Column.name = df.map Column.name
    ∧ (analyze_data df).2.map (fun c => c.data.length) = df.map (fun c => c.data.length) := by
  refine ⟨by simp [analyze_data], ?_, ?_⟩
  · show (df.map (fun c => (analyzeColumn c).2)).map Column.name = df.map Column.name
    rw [List.map_map]
    refine List.map_congr_left fun c _ => (analyzeColumn_shape c).1
  · show (df.map (fun c => (analyzeColumn c).2)).map (fun c => c.data.length)
        = df.map (fun c => c.data.length)
    rw [List.map_map]
    refine List.map_congr_left fun c _ => (analyzeColumn_shape c).2

/-- Claim C4. A histogram chart always has the count aggregate as its
y-encoding (whatever y_col is, and the whole spec is independent of
y_col), and its x-encoding is the x_col field forced quantitative and
binned, independent of the dataset and hence of the inferred column
type. -/
theorem create_chart_histogram (df df2 : DataFrame) (x_col y_col y_col2 title : String) :
    (create_chart df x_col y_col "histogram" title).y = countEncoding
    ∧ (create_chart df x_col y_col "histogram" title).x
        = ⟨x_col, EncType.quantitative, true, none⟩
    ∧ create_chart df x_col y_col "histogram" title
        = create_chart df x_col y_col2 "histogram" title
    ∧ (create_chart df x_col y_col "histogram" title).x
        = (create_chart df2 x_col y_col "histogram" title).x :=
  ⟨rfl, rfl, rfl, rfl⟩

/-- Claim C5. The fixed mapping table of create_chart: line, bar, scatter
and area use the given columns as plain encodings with marks line, bar,
point and area; boxplot forces x_col nominal and y_col quantitative; the
histogram row is the bar mark with forced-quantitative binned x and a
count-aggregate y; and every chart carries the given title verbatim. -/
theorem create_chart_mapping_table (df : DataFrame) (x_col y_col title : String) :
    create_chart df x_col y_col "line" title
      = ⟨df, "line", shorthand x_col, shorthand y_col, title⟩
    ∧ create_chart df x_col y_col "bar" title
      = ⟨df, "bar", shorthand x_col, shorthand y_col, title⟩
    ∧ create_chart df x_col y_col "scatter" title
      = ⟨df, "point", shorthand x_col, shorthand y_col, title⟩
    ∧ create_chart df x_col y_col "area" title
      = ⟨df, "area", shorthand x_col, shorthand y_col, title⟩
    ∧ create_chart df x_col y_col "histogram" title
      = ⟨df, "bar", ⟨x_col, EncType.quantitative, true, none⟩, countEncoding, title⟩
    ∧ create_chart df x_col y_col "boxplot" title
      = ⟨df, "boxplot", ⟨x_col, EncType.nominal, false, none⟩,
          ⟨y_col, EncType.quantitative, false, none⟩, title⟩
    ∧ ∀ chart_type, (create_chart df x_col y_col chart_type title).title = title := by
  refine ⟨rfl, rfl, rfl, rfl, rfl, rfl, ?_⟩
  intro chart_type
  unfold create_chart
  split_ifs <;> rfl

/-- Claim C6. Any chart_type string outside the six recognized kinds
produces exactly the same spec as chart_type scatter: both are the point
mark over the given columns. -/
theorem create_chart_unknown_fallback (df : DataFrame) (x_col y_col chart_type title : String)
    (h : chart_type ∉ ["line", "bar", "scatter", "area", "histogram", "boxplot"]) :
    create_chart df x_col y_col chart_type title
      = create_chart df x_col y_col "scatter" title := by
  simp only [List.mem_cons, List.not_mem_nil, or_false, not_or] at h
  obtain ⟨h1, h2, h3, h4, h5, h6⟩ := h
  simp [create_chart, h1, h2, h3, h4, h5, h6]

/-- Claim C6, witness at the unrecognized string used by the spec. -/
theorem create_chart_unknown_fallback_witness :
    create_chart [] "x" "y" "unknown_type" "T" = create_chart [] "x" "y" "scatter" "T" :=
  create_chart_unknown_fallback [] "x" "y" "unknown_type" "T" (by decide)

/-- Claim C7. Whenever json.loads fails on the raw response text, the
parsing step of ask_llm_for_charts returns the empty recommendation list;
the function is total, so no error escapes. -/
theorem parseChartsResponse_fallback (loads : String → Option Json) (text : String)
    (h : loads text = none) :
    parseChartsResponse loads text = Json.obj [("recommendations", Json.arr [])] := by
  unfold parseChartsResponse
  rw [h]

/-- Claim C7, witness on the raw text used by the spec, with a loads
function that rejects every input. -/
theorem parseChartsResponse_fallback_witness :
    parseChartsResponse (fun _ => none) "not json"
      = Json.obj [("recommendations", Json.arr [])] :=
  parseChartsResponse_fallback (fun _ => none) "not json" rfl

/-- A recommendation item carrying all six required keys never aborts the
loop: its iteration always completes with an outcome, whatever the
external render call does. -/
theorem renderItem_ok_of_wellFormed (render : ChartSpec → Except String Unit)
    (df : DataFrame) (x_col y_col : String) (r : RecItem)
    (h : wellFormed r = true) :
    ∃ out, renderItem render df x_col y_col r = Except.ok out := by
  simp only [wellFormed, requiredKeys, List.all_cons, List.all_nil, Bool.and_true,
    Bool.and_eq_true] at h
  obtain ⟨h1, h2, h3, h4, h5, h6⟩ := h
  obtain ⟨ct, hct⟩ := Option.isSome_iff_exists.mp h1
  obtain ⟨ti, hti⟩ := Option.isSome_iff_exists.mp h2
  obtain ⟨v3, hv3⟩ := Option.isSome_iff_exists.mp h3
  obtain ⟨v4, hv4⟩ := Option.isSome_iff_exists.mp h4
  obtain ⟨v5, hv5⟩ := Option.isSome_iff_exists.mp h5
  obtain ⟨v6, hv6⟩ := Option.isSome_iff_exists.mp h6
  unfold renderItem
  rw [hct, hti, hv3, hv4, hv5, hv6]
  show ∃ out,
      (match render (create_chart df x_col y_col ct ti) with
        | Except.ok _ => Except.ok (RenderOutcome.rendered (create_chart df x_col y_col ct ti))
        | Except.error e => Except.ok (RenderOutcome.renderError ct e))
        = Except.ok out
  cases render (create_chart df x_col y_col ct ti) with
  | ok u => exact ⟨RenderOutcome.rendered (create_chart df x_col y_col ct ti), rfl⟩
  | error e => exact ⟨RenderOutcome.renderError ct e, rfl⟩

/-- Claim C8, counterexample. A recommendation item missing the
chart_type key aborts the whole batch: with a render function that always
succeeds, the loop over a malformed first item followed by a well-formed
second item ends in an uncaught KeyError and produces no outcome at all,
even though the second item on its own renders fine. The dict key
accesses sit outside the try/except, so this failure is not isolated per
item. -/
theorem renderLoop_missing_key_counterexample :
    renderLoop (fun _ => Except.ok ()) [] "x" "y"
      [[("title", "T"), ("intent", "I"), ("strengths", "S"),
        ("weaknesses", "W"), ("when_to_use", "U")],
       [("chart_type", "bar"), ("title", "T2"), ("intent", "I2"), ("strengths", "S2"),
        ("weaknesses", "W2"), ("when_to_use", "U2")]]
      = Except.error "KeyError"
    ∧ renderLoop (fun _ => Except.ok ()) [] "x" "y"
        [[("chart_type", "bar"), ("title", "T2"), ("intent", "I2"), ("strengths", "S2"),
          ("weaknesses", "W2"), ("when_to_use", "U2")]]
        = Except.ok [RenderOutcome.rendered (create_chart [] "x" "y" "bar" "T2")] :=
  ⟨rfl, rfl⟩

/-- Claim C8, amended. Chart-rendering failures are isolated per item: as
long as every recommendation item carries the six keys the loop body
reads, the loop completes with one outcome per item no matter which
render calls fail; but a malformed item missing a required key raises an
uncaught error that aborts the remaining items. -/
theorem renderLoop_render_failure_isolated (render : ChartSpec → Except String Unit)
    (df : DataFrame) (x_col y_col : String) (items : List RecItem)
    (h : ∀ r ∈ items, wellFormed r = true) :
    ∃ outs, renderLoop render df x_col y_col items = Except.ok outs
      ∧ outs.length = items.length := by
  induction items with
  | nil => exact ⟨[], rfl, rfl⟩
  | cons r rs ih =>
    obtain ⟨out, hout⟩ := renderItem_ok_of_wellFormed render df x_col y_col r
      (h r (List.mem_cons_self r rs))
    obtain ⟨outs, houts, hlen⟩ := ih fun x hx => h x (List.mem_cons_of_mem r hx)
    refine ⟨out :: outs, ?_, by simp [hlen]⟩
    unfold renderLoop
    rw [hout, houts]

/-- Claim C8, witness for the amended theorem: with a render function that
fails on every chart, a batch of two well-formed recommendations still
completes with two outcomes. -/
theorem renderLoop_render_failure_isolated_witness :
    ∃ outs, renderLoop (fun _ => Except.error "boom") [] "x" "y"
        [[("chart_type", "line"), ("title", "A"), ("intent", "IA"), ("strengths", "SA"),
          ("weaknesses", "WA"), ("when_to_use", "UA")],
         [("chart_type", "histogram"), ("title", "B"), ("intent", "IB"), ("strengths", "SB"),
          ("weaknesses", "WB"), ("when_to_use", "UB")]]
        = Except.ok outs ∧ outs.length = 2 :=
  renderLoop_render_failure_isolated (fun _ => Except.error "boom") [] "x" "y" _ (by decide)

/-- Claim C9. A column that is neither numeric nor temporal and whose
values fail to parse as dates is classified categorical with its stored
values untouched; the inference step is total (it returns instead of
raising), and the unchanged column reappears verbatim in the dataset
returned by analyze_data. -/
theorem analyze_data_unparseable_categorical (c : Column) (vals : List String)
    (h1 : c.data = ColumnData.object vals) (h2 : to_datetime vals = none) :
    (analyzeColumn c).1.type = "categorical"
    ∧ (analyzeColumn c).2 = c
    ∧ ∀ df : DataFrame, c ∈ df → c ∈ (analyze_data df).2 := by
  obtain ⟨n, data⟩ := c
  cases h1
  have hstep : analyzeColumn ⟨n, ColumnData.object vals⟩
      = (⟨"categorical", (ColumnData.object vals).nunique⟩, ⟨n, ColumnData.object vals⟩) := by
    simp [analyzeColumn, is_numeric_dtype, is_datetime64_any_dtype, h2]
  refine ⟨by rw [hstep], by rw [hstep], ?_⟩
  intro df hmem
  show _ ∈ df.map (fun c => (analyzeColumn c).2)
  exact List.mem_map.mpr ⟨⟨n, ColumnData.object vals⟩, hmem, by rw [hstep]⟩

/-- Claim C9, witness on a column of two unparseable strings. -/
theorem analyze_data_unparseable_categorical_witness :
    (analyzeColumn ⟨"c", ColumnData.object ["a", "b"]⟩).1.type = "categorical"
    ∧ (analyzeColumn ⟨"c", ColumnData.object ["a", "b"]⟩).2 = ⟨"c", ColumnData.object ["a", "b"]⟩
    ∧ ∀ df : DataFrame, (⟨"c", ColumnData.object ["a", "b"]⟩ : Column) ∈ df →
        (⟨"c", ColumnData.object ["a", "b"]⟩ : Column) ∈ (analyze_data df).2 :=
  analyze_data_unparseable_categorical ⟨"c", ColumnData.object ["a", "b"]⟩ ["a", "b"] rfl rfl

/-- Claim C10. For every dataset with pairwise-distinct column names, the
metadata mapping has exactly one entry per column, keyed by that column
name, in column order: its key sequence equals the column-name sequence
(so a dataset with zero columns yields an empty mapping). -/
theorem analyze_data_meta_keys (df : DataFrame) (hnd : (df.map Column.name).Nodup) :
    (analyze_data df).1.map Prod.fst = df.map Column.name := by
  rw [analyze_data_meta df hnd, List.map_map]
  rfl

/-- Claim C10, witness: the empty dataset yields an empty mapping, and a
two-column dataset yields exactly its two names as keys. -/
theorem analyze_data_meta_keys_witness :
    ((analyze_data ([] : DataFrame)).1.map Prod.fst = ([] : DataFrame).map Column.name)
    ∧ ((analyze_data [⟨"a", ColumnData.numeric [1]⟩, ⟨"b", ColumnData.object ["x"]⟩]).1.map
          Prod.fst
      = [Column.mk "a" (ColumnData.numeric [1]),
         Column.mk "b" (ColumnData.object ["x"])].map Column.name) :=
  ⟨analyze_data_meta_keys [] (by decide),
   analyze_data_meta_keys
     [⟨"a", ColumnData.numeric [1]⟩, ⟨"b", ColumnData.object ["x"]⟩] (by decide)⟩

end ChartRecommender

